import Mathlib

/-!
Verification development for the shellyctl repository: a CLI client for
Shelly Plug smart plugs, with a legacy (Gen 1) REST client, a newer
(Gen 2) RPC-style client, and a shared transport layer.

Go `float64` values are modelled as exact rationals (`ℚ`); Go `%.2f`
formatting is modelled as decimal rounding (ties to even) of the exact
rational. Pointers are `Option`, slices are `List`, `int`/`int64` are
`Int`. The device's echoed responses are passed to operations as explicit
arguments, and each operation returns the data the Go function returns
together with the output it writes to its `io.Writer` sink.
-/

namespace Shellyctl

/-! ## Go `fmt` verbs -/

/-- Go `%t` of a boolean. -/
def fmtBool : Bool → String
  | true => "true"
  | false => "false"

/-- Round `100 * (n / d)` to the nearest integer, ties to even: the number of
centi-units printed by Go `%.2f` for the exact rational `n / d`. -/
def roundHalfEvenCenti (n : ℤ) (d : ℕ) : ℤ :=
  let f : ℤ := Int.fdiv (100 * n) d
  let r2 : ℤ := 100 * n - f * d
  if 2 * r2 < d then f
  else if (d : ℤ) < 2 * r2 then f + 1
  else if 2 ∣ f then f else f + 1

/-- Print a signed count of centi-units as a decimal with two digits after
the point. -/
def fmtF2Int (n : ℤ) : String :=
  (if n < 0 then "-" else "")
    ++ toString (n.natAbs / 100) ++ "."
    ++ (if n.natAbs % 100 < 10 then "0" else "")
    ++ toString (n.natAbs % 100)

/-- Go `%.2f` of a float, modelled on the exact rational value. -/
def fmtF2 (q : ℚ) : String :=
  fmtF2Int (roundHalfEvenCenti q.num q.den)

/-! ## `net/url` model

Mirrors the parts of Go's `net/url` the transport uses: `url.URL` with
`Host` and `User`, `Userinfo` with `Username()` and `Password()`, and
`URL.Hostname()` which strips an optional `:port` suffix and square
brackets from the host. -/

/-- Go `url.Userinfo`: a username and an optionally-set password
(`Password()` returns `""` when unset). -/
structure Userinfo where
  username : String
  password : Option String
deriving DecidableEq

/-- Go `url.URL`, restricted to the fields the program reads. -/
structure URL where
  scheme : String := ""
  host : String := ""
  user : Option Userinfo := none
deriving DecidableEq

/-- Split a character list at its LAST colon, returning the parts before and
after it, or `none` when there is no colon. Mirrors
`strings.LastIndexByte(host, ':')` in Go's `splitHostPort`. -/
def lastColonSplit : List Char → Option (List Char × List Char)
  | [] => none
  | ch :: rest =>
    match lastColonSplit rest with
    | some (pre, post) => some (ch :: pre, post)
    | none => if ch = ':' then some ([], rest) else none

/-- The host part of Go's `splitHostPort`: drop a trailing `:digits` port
(the candidate port `":" ++ post` is valid when `post` is all digits, as in
Go's `validOptionalPort`), then strip one pair of enclosing square
brackets. -/
def splitHostPortHost (hostPort : List Char) : List Char :=
  let host :=
    match lastColonSplit hostPort with
    | some (pre, post) => if post.all Char.isDigit then pre else hostPort
    | none => hostPort
  if host.head? = some '[' ∧ host.getLast? = some ']' then
    (host.drop 1).dropLast
  else host

/-- Go `url.URL.Hostname()`. -/
def URL.hostname (u : URL) : String :=
  ⟨splitHostPortHost u.host.data⟩

/-! ## Transport and output model -/

/-- The HTTP request a transport call issues: its URL string, the query
parameters attached to it, and the Basic Authentication credentials
attached to it, when any. -/
structure Request where
  url : String
  queryParams : List (String × String)
  basicAuth : Option (String × String)
deriving DecidableEq

/-- Errors an operation can produce: `errorf` for a Go error value built
with `fmt.Errorf`, and `nilDeref` for a Go runtime nil-pointer panic. -/
inductive GoError where
  | errorf (msg : String)
  | nilDeref (msg : String)
deriving DecidableEq

/-- One chunk written to the output sink: a plain text line, a rendered
JSON object of numeric fields, or a rendered Choria metrics envelope of
labels and numeric metrics. -/
inductive OutChunk where
  | line (s : String)
  | json (fields : List (String × ℚ))
  | choria (labels : List (String × String)) (metrics : List (String × ℚ))

/-! ## Gen 1 wire schema (`plug_v2.go`, lowercase `...V1` types) -/

/-- Go `wiFiStatusV1`. -/
structure wiFiStatusV1 where
  connected : Bool := false
  ssid : String := ""
  ip : String := ""
  rssi : Int := 0
deriving DecidableEq

/-- Go `cloudStatusV1`. -/
structure cloudStatusV1 where
  enabled : Bool := false
  connected : Bool := false
deriving DecidableEq

/-- Go `mQTTStatusV1`. -/
structure mQTTStatusV1 where
  connected : Bool := false
deriving DecidableEq

/-- Go `updateStatusV1`. -/
structure updateStatusV1 where
  statusmsg : String := ""
  hasUpdate : Bool := false
  newVersion : String := ""
  oldVersion : String := ""
deriving DecidableEq

/-- Go `fileSystemStatusV1`. -/
structure fileSystemStatusV1 where
  size : Int := 0
  free : Int := 0
deriving DecidableEq

/-- Go `relayV1`: the state of one relay output channel. -/
structure relayV1 where
  isOn : Bool := false
  hasTimer : Bool := false
  timerStarted : Int := 0
  timerDuration : Int := 0
  timerRemaining : Int := 0
  overpower : Bool := false
  source : String := ""
deriving DecidableEq, Inhabited

/-- Go `meterV1`: the state of one power meter. `total` is the device's
integer energy counter. -/
structure meterV1 where
  power : ℚ := 0
  overpower : ℚ := 0
  isValid : Bool := false
  timestamp : Int := 0
  counters : List ℚ := []
  total : Int := 0
deriving Inhabited

/-- Go `deviceStatusV1`: the `/status` payload of a Gen 1 device. -/
structure deviceStatusV1 where
  wifi : wiFiStatusV1 := {}
  cloud : cloudStatusV1 := {}
  mqtt : mQTTStatusV1 := {}
  time : String := ""
  unixtime : Int := 0
  serial : Int := 0
  mac : String := ""
  update : updateStatusV1 := {}
  fs : fileSystemStatusV1 := {}
  uptime : Int := 0
  relays : List relayV1 := []
  meters : List meterV1 := []
  ramTotal : Int := 0
  ramFree : Int := 0
  fsSize : Int := 0
  fsFree : Int := 0

/-- Go `deviceInfoV1`: the `/shelly` payload of a Gen 1 device. -/
structure deviceInfoV1 where
  type : String := ""
  mac : String := ""
  auth : Bool := false
  fw : String := ""
  longID : Int := 0
deriving DecidableEq

/-! ## Gen 2 wire schema (`plug_v2.go`, `...V2` types) -/

/-- Go `UpdateInfoV2`. -/
structure UpdateInfoV2 where
  version : String := ""
deriving DecidableEq

/-- Go `AvailableUpdatesV2`. -/
structure AvailableUpdatesV2 where
  beta : Option UpdateInfoV2 := none
  stable : Option UpdateInfoV2 := none
deriving DecidableEq

/-- Go `WakeupReasonV2`. -/
structure WakeupReasonV2 where
  boot : String := ""
  cause : String := ""
deriving DecidableEq

/-- Go `SystemStatusV2`. -/
structure SystemStatusV2 where
  mac : String := ""
  restartRequired : Bool := false
  time : String := ""
  unixTime : Int := 0
  lastSyncTS : Int := 0
  uptime : Int := 0
  ramSize : Int := 0
  ramFree : Int := 0
  fsSize : Int := 0
  fsFree : Int := 0
  cfgRev : Int := 0
  kvsRev : Int := 0
  scheduleRev : Int := 0
  webhookRev : Int := 0
  knxRev : Int := 0
  btRelayRev : Int := 0
  bthcRev : Int := 0
  availableUpdates : AvailableUpdatesV2 := {}
  wakeupReason : Option WakeupReasonV2 := none
  wakeupPeriod : Option Int := none
  utcOffset : Int := 0
deriving DecidableEq

/-- Go `ActiveEnergyV2`: the active-energy counter of a switch. `total`
is in watt-hours. -/
structure ActiveEnergyV2 where
  total : ℚ := 0
  byMinute : List ℚ := []
  minuteTS : Int := 0

/-- Go `ReturnedEnergyV2`. -/
structure ReturnedEnergyV2 where
  total : ℚ := 0
  byMinute : List ℚ := []
  minuteTS : Int := 0

/-- Go `TemperatureStatusV2`. -/
structure TemperatureStatusV2 where
  tC : ℚ := 0
  tF : ℚ := 0

/-- Go `SwitchStatusV2`: full status of a Switch component instance. The
`aenergy`, `retAenergy` and `temperature` sub-structures are pointers in
Go and may be absent. -/
structure SwitchStatusV2 where
  id : Int := 0
  source : String := ""
  output : Bool := false
  timerStartedAt : Int := 0
  timerDuration : Int := 0
  apower : ℚ := 0
  voltage : ℚ := 0
  current : ℚ := 0
  pf : ℚ := 0
  freq : ℚ := 0
  aenergy : Option ActiveEnergyV2 := none
  retAenergy : Option ReturnedEnergyV2 := none
  temperature : Option TemperatureStatusV2 := none
  errors : List String := []

/-- Go `WifiStatusV2`. -/
structure WifiStatusV2 where
  staIP : String := ""
  statusmsg : String := ""
  ssid : String := ""
  bssid : String := ""
  rssi : Int := 0
  apClientCount : Int := 0
deriving DecidableEq

/-- Go `DeviceStatusV2`: the `rpc/Shelly.GetStatus` payload of a Gen 2
device; every sub-status is a pointer in Go and may be absent. -/
structure DeviceStatusV2 where
  system : Option SystemStatusV2 := none
  switch1 : Option SwitchStatusV2 := none
  wifi : Option WifiStatusV2 := none

/-- Go `SwitchStateV2`: the echoed state of the `relay/0` control
endpoint on a Gen 2 device. -/
structure SwitchStateV2 where
  isOn : Bool := false
  hasTimer : Bool := false
  timerStartedAt : Int := 0
  timerDuration : ℚ := 0
  timerRemaining : ℚ := 0
  overpower : Bool := false
  source : String := ""

/-! ## Clients

Each client stores the configured device address. The Go constructors
return `(Plug, error)` and issue no transport call; here each constructor
returns its result paired with the list of HTTP requests it issues, which
is empty, mirroring that the Go constructor only validates the address. -/

/-- Go `shellyPlugV2`. -/
structure shellyPlugV2 where
  address : URL
deriving DecidableEq

/-- Go `shellyPlugV1`. -/
structure shellyPlugV1 where
  address : URL
deriving DecidableEq

/-- Go `shellyPlug`: the legacy client of the first interface version. -/
structure shellyPlug where
  address : URL
deriving DecidableEq

/-- Go `newShellyV2Plug`: fails when the address has an empty host,
otherwise stores the address. The second component is the list of
requests issued during construction (the Go code performs none). -/
def newShellyV2Plug (address : URL) : Except GoError shellyPlugV2 × List Request :=
  if address.host = "" then (.error (.errorf "invalid address"), [])
  else (.ok ⟨address⟩, [])

/-- Go `newShellyV1Plug`: same validation as `newShellyV2Plug`. -/
def newShellyV1Plug (address : URL) : Except GoError shellyPlugV1 × List Request :=
  if address.host = "" then (.error (.errorf "invalid address"), [])
  else (.ok ⟨address⟩, [])

/-- Go `NewShellyPlug` (legacy interface): same validation. -/
def NewShellyPlug (address : URL) : Except GoError shellyPlug × List Request :=
  if address.host = "" then (.error (.errorf "invalid address"), [])
  else (.ok ⟨address⟩, [])

/-- The request built by every generation's `get` transport method:
URL `http://<Hostname()>/<path>`, the supplied query parameters, and
Basic Authentication from the address's `Userinfo` when one is present
(Go: `client.SetBasicAuth(User.Username(), password)` where
`password, _ := User.Password()`). -/
def shellyGetRequest (address : URL) (path : String)
    (queries : List (String × String)) : Request where
  url := "http://" ++ address.hostname ++ "/" ++ path
  queryParams := queries
  basicAuth := address.user.map fun u => (u.username, u.password.getD "")

/-- Go `shellyPlugV2.get`: the request issued by the Gen 2 transport. -/
def shellyPlugV2.get (s : shellyPlugV2) (path : String)
    (queries : List (String × String)) : Request :=
  shellyGetRequest s.address path queries

/-- Go `shellyPlugV1.get`: the request issued by the Gen 1 transport. -/
def shellyPlugV1.get (s : shellyPlugV1) (path : String)
    (queries : List (String × String)) : Request :=
  shellyGetRequest s.address path queries

/-- Go `shellyPlug.get`: the request issued by the legacy transport. -/
def shellyPlug.get (s : shellyPlug) (path : String)
    (queries : List (String × String)) : Request :=
  shellyGetRequest s.address path queries

/-- Go `shellyPlugV2.TurnOn`, given the state the device echoes for the
`relay/0?turn=on` request: returns the request issued and the
`(bool, error)` pair the Go method returns when the transport call
succeeds. -/
def shellyPlugV2.TurnOn (s : shellyPlugV2) (echo : SwitchStateV2) :
    Request × Bool × Option GoError :=
  (s.get "relay/0" [("turn", "on")],
   if !echo.isOn then (false, some (.errorf "relay is not on"))
   else (echo.isOn, none))

/-- Go `shellyPlugV2.TurnOff`, given the echoed state. -/
def shellyPlugV2.TurnOff (s : shellyPlugV2) (echo : SwitchStateV2) :
    Request × Bool × Option GoError :=
  (s.get "relay/0" [("turn", "off")],
   if echo.isOn then (echo.isOn, some (.errorf "relay is on"))
   else (echo.isOn, none))

/-- Go `shellyPlugV1.TurnOn`, given the echoed relay state. -/
def shellyPlugV1.TurnOn (s : shellyPlugV1) (echo : relayV1) :
    Request × Bool × Option GoError :=
  (s.get "relay/0" [("turn", "on")],
   if !echo.isOn then (false, some (.errorf "relay is not on"))
   else (echo.isOn, none))

/-- Go `shellyPlugV1.TurnOff`, given the echoed relay state. -/
def shellyPlugV1.TurnOff (s : shellyPlugV1) (echo : relayV1) :
    Request × Bool × Option GoError :=
  (s.get "relay/0" [("turn", "off")],
   if echo.isOn then (echo.isOn, some (.errorf "relay is on"))
   else (echo.isOn, none))

/-! ## Rendering

The Go render methods first fetch `Status()`; the fetched status is
passed in here. The mode globals `jsonFormat` and `choriaFormat` and the
`labels` map are passed as arguments. The result is the Go error value
paired with everything written to the `io.Writer` sink. -/

/-- Go `shellyPlugV1.RenderEnergy` applied to a fetched status: requires
exactly one meter and as many relays as meters, then renders the reading
in JSON, Choria-metrics or plain-text form. The energy total is the
integer counter scaled by the literal `0.000016666666666666667`. -/
def shellyPlugV1.RenderEnergy (jsonFormat choriaFormat : Bool)
    (labels : List (String × String)) (status : deviceStatusV1) :
    Except GoError Unit × List OutChunk :=
  if status.meters.length ≠ 1 then
    (.error (.errorf "no meter information received"), [])
  else if status.relays.length ≠ status.meters.length then
    (.error (.errorf "invalid relay information received"), [])
  else
    let m := status.meters.headI
    let r := status.relays.headI
    let isOn : ℚ := if r.isOn then 1 else 0
    let reading : List (String × ℚ) :=
      [("power_watt", m.power),
       ("power_total_kwh", (m.total : ℚ) * 0.000016666666666666667),
       ("is_on", isOn)]
    if jsonFormat then (.ok (), [.json reading])
    else if choriaFormat then
      (.ok (), [.choria labels
        [("current_power_watt", m.power),
         ("today_energy_kwh", (m.total : ℚ) * 0.000016666666666666667),
         ("relay_on", isOn)]])
    else
      (.ok (),
       [.line "Meter Information",
        .line "",
        .line ("          Powered On: " ++ fmtBool (isOn == 1)),
        .line ("               Power: " ++ fmtF2 m.power ++ " Watt"),
        .line ("   Total Consumption: "
          ++ fmtF2 ((m.total : ℚ) * 0.000016666666666666667) ++ " kWh")])

/-- Go `shellyPlugV2.RenderEnergy` applied to a fetched status: requires a
present switch sub-status and a present active-energy sub-structure, then
builds the reading map — dereferencing `Switch1.Temperature`
unconditionally, a nil-pointer panic when the temperature sub-structure
is absent — and renders it in JSON, Choria-metrics or plain-text form. -/
def shellyPlugV2.RenderEnergy (jsonFormat choriaFormat : Bool)
    (labels : List (String × String)) (status : DeviceStatusV2) :
    Except GoError Unit × List OutChunk :=
  match status.switch1 with
  | none => (.error (.errorf "no switch information received"), [])
  | some sw =>
    match sw.aenergy with
    | none => (.error (.errorf "no meter information received"), [])
    | some ae =>
      let isOn : ℚ := if sw.output then 1 else 0
      match sw.temperature with
      | none =>
        (.error (.nilDeref "invalid memory address or nil pointer dereference"), [])
      | some temp =>
        let reading : List (String × ℚ) :=
          [("power_watt", sw.apower),
           ("power_volt", sw.voltage),
           ("power_ampere", sw.current),
           ("power_frequency", sw.freq),
           ("power_total_kwh", ae.total / 1000),
           ("internal_celsius", temp.tC),
           ("is_on", isOn)]
        if jsonFormat then (.ok (), [.json reading])
        else if choriaFormat then
          (.ok (), [.choria labels
            [("current_power_watt", sw.apower),
             ("current_power_volt", sw.voltage),
             ("current_power_ampere", sw.current),
             ("current_power_frequency", sw.freq),
             ("internal_celsius", temp.tC),
             ("total_energy_kwh", ae.total / 1000),
             ("relay_on", isOn)]])
        else
          (.ok (),
           [.line "Meter Information",
            .line "",
            .line ("              Powered On: " ++ fmtBool (isOn == 1)),
            .line ("                   Power: " ++ fmtF2 sw.apower ++ " Watt"),
            .line ("                 Voltage: " ++ fmtF2 sw.voltage ++ " V"),
            .line ("                 Current: " ++ fmtF2 sw.current ++ " Amp"),
            .line ("               Frequency: " ++ fmtF2 sw.freq ++ " Hz"),
            .line ("       Total Consumption: " ++ fmtF2 (ae.total / 1000) ++ " kWh"),
            .line ("           Internal Temp: " ++ fmtF2 temp.tC ++ " C")])

/-! ## Helper lemmas -/

/-- Evaluation of Go `%.2f` on the value 2.45. -/
lemma fmtF2_two_forty_five : fmtF2 (2.45 : ℚ) = "2.45" := by
  rw [fmtF2, (by norm_num : (2.45 : ℚ).num = 49), (by norm_num : (2.45 : ℚ).den = 20)]
  decide

/-- Evaluation of Go `%.2f` on the scaled Gen-1 counter 615. -/
lemma fmtF2_total_615 :
    fmtF2 ((615 : ℚ) * 0.000016666666666666667) = "0.01" := by
  rw [fmtF2,
    (by norm_num : ((615 : ℚ) * 0.000016666666666666667).num = 2050000000000000041),
    (by norm_num : ((615 : ℚ) * 0.000016666666666666667).den = 200000000000000000000)]
  decide

lemma qbeq_zero_one : (((0 : ℚ)) == 1) = false := by simp

lemma qbeq_one_one : (((1 : ℚ)) == 1) = true := by simp

lemma lastColonSplit_eq_none {l : List Char} (h : ':' ∉ l) :
    lastColonSplit l = none := by
  induction l with
  | nil => rfl
  | cons c rest ih =>
    rw [List.mem_cons] at h
    push_neg at h
    obtain ⟨h1, h2⟩ := h
    simp [lastColonSplit, ih h2, Ne.symm h1]

lemma splitHostPortHost_of_plain {l : List Char} (hc : ':' ∉ l)
    (hb : l.head? ≠ some '[') : splitHostPortHost l = l := by
  unfold splitHostPortHost
  rw [lastColonSplit_eq_none hc]
  simp [hb]

/-- On a host carrying no colon and not beginning with a bracket —
the shape `deviceUrl` produces — `Hostname()` is the host itself. -/
lemma URL.hostname_eq_host (u : URL) (hc : ':' ∉ u.host.data)
    (hb : u.host.data.head? ≠ some '[') : u.hostname = u.host := by
  unfold URL.hostname
  rw [splitHostPortHost_of_plain hc hb]

/-! ## Claims -/

/-- C1: for every valid Gen-1 device status with exactly one relay and one
meter, `RenderEnergy` in JSON mode emits a `power_total_kwh` value equal
to the meter's integer `Total` counter multiplied by 1/60000, within
floating-point tolerance (the code's literal scale factor
`0.000016666666666666667` differs from 1/60000 by exactly
`1/(3 * 10^21)`). -/
theorem C1_v1_json_power_total_kwh (choriaFormat : Bool)
    (labels : List (String × String)) (st : deviceStatusV1) (m : meterV1)
    (hm : st.meters = [m]) (hr : st.relays.length = 1) :
    ∃ fields q,
      (shellyPlugV1.RenderEnergy true choriaFormat labels st).2 = [OutChunk.json fields] ∧
      fields.lookup "power_total_kwh" = some q ∧
      |q - (m.total : ℚ) / 60000| ≤ |(m.total : ℚ)| / 10 ^ 20 := by
  refine ⟨[("power_watt", m.power),
           ("power_total_kwh", (m.total : ℚ) * 0.000016666666666666667),
           ("is_on", if st.relays.headI.isOn then (1 : ℚ) else 0)],
          (m.total : ℚ) * 0.000016666666666666667, ?_, rfl, ?_⟩
  · simp [shellyPlugV1.RenderEnergy, hm, hr, List.headI]
  · have h2 : (m.total : ℚ) * 0.000016666666666666667 - m.total / 60000
        = (m.total : ℚ) * (1 / (3 * 10 ^ 21)) := by
      norm_num
      ring
    rw [h2, abs_mul]
    have h3 : |(1 : ℚ) / (3 * 10 ^ 21)| = 1 / (3 * 10 ^ 21) := by
      rw [abs_of_pos]
      norm_num
    rw [h3, div_eq_mul_inv (|(m.total : ℚ)|)]
    exact mul_le_mul_of_nonneg_left (by norm_num) (abs_nonneg _)

/-- Witness for C1 at the concrete status with one relay and the meter
`{power := 2.45, total := 615}`. -/
theorem C1_v1_json_power_total_kwh_witness :
    ∃ fields q,
      (shellyPlugV1.RenderEnergy true false []
        { relays := [{}], meters := [{ power := 2.45, total := 615 }] }).2
        = [OutChunk.json fields] ∧
      fields.lookup "power_total_kwh" = some q ∧
      |q - ((615 : ℤ) : ℚ) / 60000| ≤ |((615 : ℤ) : ℚ)| / 10 ^ 20 :=
  C1_v1_json_power_total_kwh false []
    { relays := [{}], meters := [{ power := 2.45, total := 615 }] }
    { power := 2.45, total := 615 } rfl rfl

/-- C3: for every echoed relay/switch state, `TurnOn` returns an error
whenever the echo reports the output off, and `TurnOff` returns an error
whenever the echo reports the output on, on both generations. -/
theorem C3_turn_postconditions (s1 : shellyPlugV1) (s2 : shellyPlugV2)
    (e1 : relayV1) (e2 : SwitchStateV2) :
    (e1.isOn = false → (s1.TurnOn e1).2.2 = some (.errorf "relay is not on")) ∧
    (e1.isOn = true → (s1.TurnOff e1).2.2 = some (.errorf "relay is on")) ∧
    (e2.isOn = false → (s2.TurnOn e2).2.2 = some (.errorf "relay is not on")) ∧
    (e2.isOn = true → (s2.TurnOff e2).2.2 = some (.errorf "relay is on")) := by
  refine ⟨?_, ?_, ?_, ?_⟩ <;> intro h <;>
    simp [shellyPlugV1.TurnOn, shellyPlugV1.TurnOff,
      shellyPlugV2.TurnOn, shellyPlugV2.TurnOff, h]

/-- Witness for C3 at off and on echoes on both generations. -/
theorem C3_turn_postconditions_witness :
    ((shellyPlugV1.mk {}).TurnOn {}).2.2 = some (.errorf "relay is not on") ∧
    ((shellyPlugV1.mk {}).TurnOff { isOn := true }).2.2 = some (.errorf "relay is on") ∧
    ((shellyPlugV2.mk {}).TurnOn {}).2.2 = some (.errorf "relay is not on") ∧
    ((shellyPlugV2.mk {}).TurnOff { isOn := true }).2.2 = some (.errorf "relay is on") := by
  have h1 := C3_turn_postconditions (shellyPlugV1.mk {}) (shellyPlugV2.mk {}) {} {}
  have h2 := C3_turn_postconditions (shellyPlugV1.mk {}) (shellyPlugV2.mk {})
    { isOn := true } { isOn := true }
  exact ⟨h1.1 rfl, h2.2.1 rfl, h1.2.2.1 rfl, h2.2.2.2 rfl⟩

/-- C4: Gen-2 `RenderEnergy` on a status with a missing switch sub-status,
or a present switch but missing active-energy sub-structure, returns a
descriptive precondition error and writes nothing to the output sink, in
every output mode. -/
theorem C4_v2_render_energy_preconditions (jsonFormat choriaFormat : Bool)
    (labels : List (String × String)) (st : DeviceStatusV2) :
    (st.switch1 = none →
      shellyPlugV2.RenderEnergy jsonFormat choriaFormat labels st
        = (.error (.errorf "no switch information received"), [])) ∧
    (∀ sw, st.switch1 = some sw → sw.aenergy = none →
      shellyPlugV2.RenderEnergy jsonFormat choriaFormat labels st
        = (.error (.errorf "no meter information received"), [])) := by
  constructor
  · intro h
    simp [shellyPlugV2.RenderEnergy, h]
  · intro sw h1 h2
    simp [shellyPlugV2.RenderEnergy, h1, h2]

/-- Witness for C4 at a status with no switch and a status whose switch
has no energy sub-structure. -/
theorem C4_v2_render_energy_preconditions_witness :
    shellyPlugV2.RenderEnergy false false [] {}
      = (.error (.errorf "no switch information received"), []) ∧
    shellyPlugV2.RenderEnergy false false [] { switch1 := some {} }
      = (.error (.errorf "no meter information received"), []) := by
  have h1 := C4_v2_render_energy_preconditions false false [] {}
  have h2 := C4_v2_render_energy_preconditions false false [] { switch1 := some {} }
  exact ⟨h1.1 rfl, h2.2 {} rfl rfl⟩

/-- C9: the unified Gen-1 `RenderEnergy` additionally requires the relay
count to equal the meter count: with exactly one meter but a relay count
different from one it fails with "invalid relay information received" and
writes nothing, in every output mode. -/
theorem C9_v1_relay_count_precondition (jsonFormat choriaFormat : Bool)
    (labels : List (String × String)) (st : deviceStatusV1)
    (hm : st.meters.length = 1) (hr : st.relays.length ≠ 1) :
    shellyPlugV1.RenderEnergy jsonFormat choriaFormat labels st
      = (.error (.errorf "invalid relay information received"), []) := by
  simp [shellyPlugV1.RenderEnergy, hm, hr]

/-- Witness for C9 at a one-meter, zero-relay status. -/
theorem C9_v1_relay_count_precondition_witness :
    shellyPlugV1.RenderEnergy false false [] { meters := [{}] }
      = (.error (.errorf "invalid relay information received"), []) :=
  C9_v1_relay_count_precondition false false [] { meters := [{}] } rfl (by decide)

/-- C10: Gen-2 `RenderEnergy` dereferences the temperature sub-structure
unconditionally after checking only the switch and energy sub-statuses:
with switch and energy present but temperature absent, the nil-pointer
branch is reached (and nothing is written), in every output mode. -/
theorem C10_v2_temperature_nil_deref (jsonFormat choriaFormat : Bool)
    (labels : List (String × String)) (st : DeviceStatusV2)
    (sw : SwitchStatusV2) (ae : ActiveEnergyV2)
    (h1 : st.switch1 = some sw) (h2 : sw.aenergy = some ae)
    (h3 : sw.temperature = none) :
    shellyPlugV2.RenderEnergy jsonFormat choriaFormat labels st
      = (.error (.nilDeref "invalid memory address or nil pointer dereference"), []) := by
  simp [shellyPlugV2.RenderEnergy, h1, h2, h3]

/-- Witness for C10 at a status whose switch carries energy but no
temperature sub-structure. -/
theorem C10_v2_temperature_nil_deref_witness :
    shellyPlugV2.RenderEnergy false false []
      { switch1 := some { aenergy := some {} } }
      = (.error (.nilDeref "invalid memory address or nil pointer dereference"), []) :=
  C10_v2_temperature_nil_deref false false []
    { switch1 := some { aenergy := some {} } }
    { aenergy := some {} } {} rfl rfl rfl

/-- A Gen-2 status whose switch and active-energy sub-structures are
present but whose temperature sub-structure is absent. -/
def statusNoTemp : DeviceStatusV2 :=
  { switch1 := some { aenergy := some { total := 100 } } }

/-- Counterexample to C2 as stated: on a status with switch and energy
present but temperature absent, metrics-mode `RenderEnergy` reaches the
unguarded `Temperature` dereference and emits no metrics at all. -/
theorem C2_counterexample_temperature_nil :
    shellyPlugV2.RenderEnergy false true [] statusNoTemp
      = (.error (.nilDeref "invalid memory address or nil pointer dereference"), []) := rfl

/-- C2 (amended): for every Gen-2 status whose switch, active-energy AND
temperature sub-structures are present, `RenderEnergy` in metrics-export
mode emits `total_energy_kwh` equal to the switch's `AEnergy.Total`
divided by 1000. -/
theorem C2_v2_metrics_total_energy_kwh (labels : List (String × String))
    (st : DeviceStatusV2) (sw : SwitchStatusV2) (ae : ActiveEnergyV2)
    (temp : TemperatureStatusV2) (h1 : st.switch1 = some sw)
    (h2 : sw.aenergy = some ae) (h3 : sw.temperature = some temp) :
    ∃ metrics,
      (shellyPlugV2.RenderEnergy false true labels st).2
        = [OutChunk.choria labels metrics] ∧
      metrics.lookup "total_energy_kwh" = some (ae.total / 1000) := by
  refine ⟨[("current_power_watt", sw.apower),
           ("current_power_volt", sw.voltage),
           ("current_power_ampere", sw.current),
           ("current_power_frequency", sw.freq),
           ("internal_celsius", temp.tC),
           ("total_energy_kwh", ae.total / 1000),
           ("relay_on", if sw.output then (1 : ℚ) else 0)], ?_, rfl⟩
  simp [shellyPlugV2.RenderEnergy, h1, h2, h3]

/-- Witness for the amended C2 at a concrete status with energy total
3000 Wh. -/
theorem C2_v2_metrics_total_energy_kwh_witness :
    ∃ metrics,
      (shellyPlugV2.RenderEnergy false true []
        { switch1 := some { aenergy := some { total := 3000 },
                            temperature := some {} } }).2
        = [OutChunk.choria [] metrics] ∧
      metrics.lookup "total_energy_kwh"
        = some ((({ total := 3000 } : ActiveEnergyV2).total) / 1000) :=
  C2_v2_metrics_total_energy_kwh []
    { switch1 := some { aenergy := some { total := 3000 },
                        temperature := some {} } }
    { aenergy := some { total := 3000 }, temperature := some {} }
    { total := 3000 } {} rfl rfl rfl

/-- The meter of the C5 example payload. -/
def meter245 : meterV1 := { power := 2.45, total := 615 }

/-- Counterexample to C5 as stated: on exactly the claimed payload — one
meter `{power: 2.45, total: 615}` and no relays listed — the unified
Gen-1 `RenderEnergy` fails its relay-count precondition and writes
nothing, so the plain-text render contains no such lines. -/
theorem C5_counterexample_no_relays :
    shellyPlugV1.RenderEnergy false false [] { meters := [meter245] }
      = (.error (.errorf "invalid relay information received"), []) := rfl

/-- C5 (amended): with the same meter and one relay listed, plain-text
`RenderEnergy` emits lines ending in `Power: 2.45 Watt` and
`Total Consumption: 0.01 kWh`. -/
theorem C5_v1_plain_text_render :
    shellyPlugV1.RenderEnergy false false []
      { relays := [{}], meters := [meter245] }
      = (.ok (),
         [.line "Meter Information",
          .line "",
          .line "          Powered On: false",
          .line ("               " ++ "Power: 2.45 Watt"),
          .line ("   " ++ "Total Consumption: 0.01 kWh")]) := by
  norm_num [shellyPlugV1.RenderEnergy, meter245, List.headI, fmtBool, fmtF2]
  decide

/-- Counterexample to C6 as stated: for the configured address host
`::1` (a bare IPv6 address, as `deviceUrl` produces from an IPv6 `-A`
flag), `Hostname()` treats the trailing `:1` as a port and strips it, so
the transport fetch addresses `http://:/status` — not
`http://<host>/<path>` built from the host component `::1`. -/
theorem C6_counterexample_ipv6_host :
    ((shellyPlugV2.mk { host := "::1" }).get "status" []).url = "http://:/status" ∧
    "http://:/status" ≠ "http://" ++ "::1" ++ "/" ++ "status" := by
  constructor
  · rfl
  · decide

/-- C6 (amended): every fetch of every generation's transport adapter addresses
`http://<host>/<path>` built from the configured device address, with the
supplied query parameters attached; `<host>` is the address's host
component (the code calls `Hostname()`, which equals the host whenever
the host carries no `:port` suffix and no IPv6 brackets — the shape
`deviceUrl` produces). -/
theorem C6_transport_url (a : URL) (path : String)
    (queries : List (String × String)) (hc : ':' ∉ a.host.data)
    (hb : a.host.data.head? ≠ some '[') :
    ((shellyPlugV2.mk a).get path queries).url = "http://" ++ a.host ++ "/" ++ path ∧
    ((shellyPlugV2.mk a).get path queries).queryParams = queries ∧
    ((shellyPlugV1.mk a).get path queries).url = "http://" ++ a.host ++ "/" ++ path ∧
    ((shellyPlugV1.mk a).get path queries).queryParams = queries ∧
    ((shellyPlug.mk a).get path queries).url = "http://" ++ a.host ++ "/" ++ path ∧
    ((shellyPlug.mk a).get path queries).queryParams = queries := by
  have h := URL.hostname_eq_host a hc hb
  refine ⟨?_, rfl, ?_, rfl, ?_, rfl⟩ <;>
    simp [shellyPlugV2.get, shellyPlugV1.get, shellyPlug.get, shellyGetRequest, h]

/-- Witness for C6 at the address host `192.168.1.1` and the Gen-1 status
path. -/
theorem C6_transport_url_witness :
    ((shellyPlugV2.mk { host := "192.168.1.1" }).get "status" []).url
        = "http://" ++ "192.168.1.1" ++ "/" ++ "status" ∧
    ((shellyPlugV2.mk { host := "192.168.1.1" }).get "status" []).queryParams = [] ∧
    ((shellyPlugV1.mk { host := "192.168.1.1" }).get "status" []).url
        = "http://" ++ "192.168.1.1" ++ "/" ++ "status" ∧
    ((shellyPlugV1.mk { host := "192.168.1.1" }).get "status" []).queryParams = [] ∧
    ((shellyPlug.mk { host := "192.168.1.1" }).get "status" []).url
        = "http://" ++ "192.168.1.1" ++ "/" ++ "status" ∧
    ((shellyPlug.mk { host := "192.168.1.1" }).get "status" []).queryParams = [] :=
  C6_transport_url { host := "192.168.1.1" } "status" [] (by decide) (by decide)

/-- C7: every transport call of every generation attaches HTTP Basic
Authentication built from the address's credentials when they are
present, and attaches none when the address carries no credentials. -/
theorem C7_transport_basic_auth (a : URL) (path : String)
    (queries : List (String × String)) :
    (a.user = none →
      ((shellyPlugV2.mk a).get path queries).basicAuth = none ∧
      ((shellyPlugV1.mk a).get path queries).basicAuth = none ∧
      ((shellyPlug.mk a).get path queries).basicAuth = none) ∧
    (∀ u, a.user = some u →
      ((shellyPlugV2.mk a).get path queries).basicAuth
          = some (u.username, u.password.getD "") ∧
      ((shellyPlugV1.mk a).get path queries).basicAuth
          = some (u.username, u.password.getD "") ∧
      ((shellyPlug.mk a).get path queries).basicAuth
          = some (u.username, u.password.getD "")) := by
  constructor
  · intro h
    refine ⟨?_, ?_, ?_⟩ <;>
      simp [shellyPlugV2.get, shellyPlugV1.get, shellyPlug.get, shellyGetRequest, h]
  · intro u h
    refine ⟨?_, ?_, ?_⟩ <;>
      simp [shellyPlugV2.get, shellyPlugV1.get, shellyPlug.get, shellyGetRequest, h]

/-- Witness for C7 at an address with credentials `admin`/`secret` and an
address without credentials. -/
theorem C7_transport_basic_auth_witness :
    ((shellyPlugV2.mk { host := "192.168.1.1" }).get "status" []).basicAuth = none ∧
    ((shellyPlugV2.mk
        { host := "192.168.1.1",
          user := some { username := "admin", password := some "secret" } }).get
        "status" []).basicAuth = some ("admin", "secret") := by
  have h1 := C7_transport_basic_auth { host := "192.168.1.1" } "status" []
  have h2 := C7_transport_basic_auth
    { host := "192.168.1.1",
      user := some { username := "admin", password := some "secret" } } "status" []
  exact ⟨(h1.1 rfl).1,
    (h2.2 { username := "admin", password := some "secret" } rfl).1⟩

/-- C8: constructing a client of any generation from an address whose host
is empty fails with the configuration error and issues zero network
requests; from an address with a non-empty host, construction succeeds
(still issuing zero requests). -/
theorem C8_constructor_host_validation (a : URL) :
    (a.host = "" →
      newShellyV2Plug a = (.error (.errorf "invalid address"), []) ∧
      newShellyV1Plug a = (.error (.errorf "invalid address"), []) ∧
      NewShellyPlug a = (.error (.errorf "invalid address"), [])) ∧
    (a.host ≠ "" →
      newShellyV2Plug a = (.ok ⟨a⟩, []) ∧
      newShellyV1Plug a = (.ok ⟨a⟩, []) ∧
      NewShellyPlug a = (.ok ⟨a⟩, [])) := by
  constructor <;> intro h <;> refine ⟨?_, ?_, ?_⟩ <;>
    simp [newShellyV2Plug, newShellyV1Plug, NewShellyPlug, h]

/-- Witness for C8 at the empty-host address and at host `192.168.1.1`. -/
theorem C8_constructor_host_validation_witness :
    newShellyV2Plug {} = (.error (.errorf "invalid address"), []) ∧
    newShellyV1Plug {} = (.error (.errorf "invalid address"), []) ∧
    NewShellyPlug {} = (.error (.errorf "invalid address"), []) ∧
    newShellyV2Plug { host := "192.168.1.1" }
      = (.ok ⟨{ host := "192.168.1.1" }⟩, []) := by
  have h1 := (C8_constructor_host_validation {}).1 rfl
  have h2 := (C8_constructor_host_validation { host := "192.168.1.1" }).2 (by decide)
  exact ⟨h1.1, h1.2.1, h1.2.2, h2.1⟩

end Shellyctl
